import Mathlib

/-!
Shallow embedding of `src/Advanced/agentic_chunker.py` (class `AgenticChunker`).

The Python object state `self.chunks` is a `dict` from chunk id to a chunk
record; Python dicts preserve insertion order, and key assignment replaces the
existing value in place, so the store is modelled as a `List Chunk` together
with an insert operation that replaces in place on key collision and appends
otherwise.  The LLM (`self.llm` invoked through prompt templates) is the
external Semantic Oracle; it is modelled as a structure of arbitrary functions
whose arguments are exactly the template variables the source passes to each
prompt.  `.content.strip()` post-processing of metadata responses is folded
into the oracle functions themselves; the placement response is stripped
explicitly because its parsing is the subject of several claims.
-/

namespace AgenticChunker

/-- One record of `self.chunks`: `{'chunk_id', 'propositions', 'title',
'summary', 'chunk_index'}` (see `_create_new_chunk`). -/
structure Chunk where
  chunk_id : String
  propositions : List String
  title : String
  summary : String
  chunk_index : Nat
deriving DecidableEq, Repr

/-- `self.chunks`, in insertion order. -/
abbrev Store := List Chunk

/-- `self.id_truncate_limit`, set to 5 in `__init__`. -/
def id_truncate_limit : Nat := 5

/-- The keys of `self.chunks`, in insertion order (`self.chunks.keys()`). -/
def storeIds (st : Store) : List String := st.map (·.chunk_id)

/-- Python `x in self.chunks` (dict key membership). -/
def storeMem (st : Store) (i : String) : Bool := (storeIds st).contains i

/-- Python `self.chunks[i]` as a total lookup (first record with key `i`). -/
def storeLookup (st : Store) (i : String) : Option Chunk :=
  st.find? (fun c => c.chunk_id == i)

/-- Python dict assignment `self.chunks[c.chunk_id] = c`: replaces in place
when the key exists (keeping its position), appends otherwise. -/
def storeInsert (st : Store) (c : Chunk) : Store :=
  if storeMem st c.chunk_id then
    st.map (fun x => if x.chunk_id == c.chunk_id then c else x)
  else
    st ++ [c]

/-- Python in-place mutation `self.chunks[cid][field] = ...`, as a map that
rewrites the record with key `cid` and leaves every other record alone. -/
def updateChunk (st : Store) (cid : String) (f : Chunk → Chunk) : Store :=
  st.map (fun c => if c.chunk_id == cid then f c else c)

/-- Python `s.upper()` restricted to the characters the source compares
(ASCII): uppercase every character. -/
def pyUpper (s : String) : String := String.mk (s.data.map Char.toUpper)

/-- Python slicing `s[:n]`: the first `n` characters. -/
def pyTake (s : String) (n : Nat) : String := String.mk (s.data.take n)

/-- Python `s.strip()`: drop leading and trailing whitespace. -/
def pyStrip (s : String) : String :=
  String.mk (((s.data.dropWhile Char.isWhitespace).reverse.dropWhile
    Char.isWhitespace).reverse)

/-- `needle` occurs as a contiguous sublist of `hay`: it is a prefix of some
suffix of `hay`. -/
def subListOf : List Char → List Char → Bool
  | needle, [] => needle.isEmpty
  | needle, c :: t => needle.isPrefixOf (c :: t) || subListOf needle t

/-- Python substring test `needle in hay`. -/
def strContains (hay needle : String) : Bool := subListOf needle.data hay.data

/-- The sentinel list of `_find_relevant_chunk`:
`["NONE", "NO CHUNKS", "NO MATCH", "NO"]`. -/
def noMatchSentinels : List String := ["NONE", "NO CHUNKS", "NO MATCH", "NO"]

/-- The response-parsing tail of `_find_relevant_chunk` (everything after the
LLM call), applied to the stripped response `result`:
sentinel check, exact id match, truncated id match, then the
first-substring-match loop over `self.chunks.keys()` (else `None`). -/
def parsePlacement (st : Store) (result : String) : Option String :=
  if pyUpper result ∈ noMatchSentinels then none
  else if storeMem st result then some result
  else if storeMem st (pyTake result id_truncate_limit) then
    some (pyTake result id_truncate_limit)
  else (storeIds st).find? (fun cid => strContains result cid)

/-- `get_chunk_outline`: one block per chunk in store order. -/
def get_chunk_outline (st : Store) : String :=
  st.foldl (fun acc c =>
    acc ++ "Chunk ID: " ++ c.chunk_id ++ "\nChunk Name: " ++ c.title ++
      "\nChunk Summary: " ++ c.summary ++ "\n\n") ""

/-- The Semantic Oracle (`self.llm` behind the five prompt templates).  Each
field takes exactly the template variables the source passes. -/
structure Oracle where
  /-- `_find_relevant_chunk` prompt: (current_chunk_outline, proposition) ↦ raw text. -/
  placementResponse : String → String → String
  /-- `_get_new_chunk_summary`: proposition ↦ summary. -/
  newSummary : String → String
  /-- `_get_new_chunk_title`: summary ↦ title. -/
  newTitle : String → String
  /-- `_update_chunk_summary`: (propositions, current summary) ↦ summary. -/
  updatedSummary : List String → String → String
  /-- `_update_chunk_title`: (propositions, summary, current title) ↦ title. -/
  updatedTitle : List String → String → String → String

/-- `_find_relevant_chunk`: builds the outline, issues exactly one oracle
query, strips the response and parses it.  The second component counts the
placement oracle queries issued (the source calls `runnable.invoke` once,
unconditionally). -/
def find_relevant_chunk (o : Oracle) (st : Store) (p : String) :
    Option String × Nat :=
  (parsePlacement st (pyStrip (o.placementResponse (get_chunk_outline st) p)), 1)

/-- `_create_new_chunk`: two sequential oracle calls (summary from the seed
proposition, then title from that summary), then dict assignment of the new
record with `chunk_index = len(self.chunks)` taken before insertion.  The
generated `str(uuid.uuid4())[:5]` id is passed in as `new_id`; the source
performs no collision check on it. -/
def create_new_chunk (o : Oracle) (new_id : String) (st : Store) (p : String) :
    Store :=
  let new_chunk_summary := o.newSummary p
  let new_chunk_title := o.newTitle new_chunk_summary
  storeInsert st
    { chunk_id := new_id
      propositions := [p]
      title := new_chunk_title
      summary := new_chunk_summary
      chunk_index := st.length }

/-- `add_proposition_to_chunk` with an always-succeeding oracle: append the
proposition, then (when `generate_new_metadata_ind` holds) regenerate the
summary from the post-append record and the title from the record with the
fresh summary. -/
def add_proposition_to_chunk (o : Oracle) (generate_new_metadata_ind : Bool)
    (st : Store) (cid : String) (p : String) : Store :=
  let st1 := updateChunk st cid
    (fun c => { c with propositions := c.propositions ++ [p] })
  if generate_new_metadata_ind then
    let st2 := updateChunk st1 cid
      (fun c => { c with summary := o.updatedSummary c.propositions c.summary })
    updateChunk st2 cid
      (fun c => { c with title := o.updatedTitle c.propositions c.summary c.title })
  else st1

/-- `get_chunks` result: either the keyed structure itself or the flattened
list-of-strings view. -/
inductive ChunksView where
  | dict : Store → ChunksView
  | strings : List String → ChunksView
deriving DecidableEq

/-- `get_chunks(get_type)`: `'dict'` returns the store, `'list_of_strings'`
returns one space-joined string per chunk in store order, and any other
argument falls off the end of the function (Python's implicit `None`).  The
source only reads `self.chunks`; it performs no mutation. -/
def get_chunks (st : Store) (get_type : String) : Option ChunksView :=
  if get_type = "dict" then some (ChunksView.dict st)
  else if get_type = "list_of_strings" then
    some (ChunksView.strings
      (st.map (fun c => String.intercalate " " c.propositions)))
  else none

/-- `add_proposition`: empty store short-circuits to creation; otherwise one
placement resolution routes to append or create.  Returns the new store, the
number of placement oracle queries issued, and whether a chunk was created.
The id a creation would use is passed in as `new_id`. -/
def add_proposition (o : Oracle) (generate_new_metadata_ind : Bool)
    (new_id : String) (st : Store) (p : String) : Store × Nat × Bool :=
  if st.length = 0 then
    (create_new_chunk o new_id st p, 0, true)
  else
    match (find_relevant_chunk o st p).1 with
    | some cid =>
        (add_proposition_to_chunk o generate_new_metadata_ind st cid p,
          (find_relevant_chunk o st p).2, false)
    | none => (create_new_chunk o new_id st p, (find_relevant_chunk o st p).2, true)

/-- `add_propositions`: fold `add_proposition` over the batch in order.  The
state carries the store together with the number of chunk creations performed
so far; the `ids` stream supplies the `str(uuid.uuid4())[:5]` draw for the
`n`-th creation. -/
structure RunState where
  store : Store
  created : Nat
deriving DecidableEq

/-- One `add_proposition` call inside a run: the id drawn for a potential
creation is `ids s.created`, and `created` advances exactly when the create
path was taken. -/
def run_add_proposition (o : Oracle) (generate_new_metadata_ind : Bool)
    (ids : Nat → String) (s : RunState) (p : String) : RunState :=
  let r := add_proposition o generate_new_metadata_ind (ids s.created) s.store p
  { store := r.1, created := if r.2.2 then s.created + 1 else s.created }

/-- `add_propositions(propositions)`: sequential fold over the batch. -/
def add_propositions (o : Oracle) (generate_new_metadata_ind : Bool)
    (ids : Nat → String) (ps : List String) (s : RunState) : RunState :=
  ps.foldl (run_add_proposition o generate_new_metadata_ind ids) s

/-- The metadata-refresh oracle calls with failure made explicit: `none`
models the LLM invocation raising (network/auth/rate-limit), which in Python
propagates out of `add_proposition_to_chunk` leaving all mutations performed
so far in place. -/
structure FallibleOracle where
  updatedSummary : List String → String → Option String
  updatedTitle : List String → String → String → Option String

/-- `add_proposition_to_chunk` under Python exception semantics: the result is
the store as mutated at the point the call returns or raises, paired with
`true` when no oracle call failed.  The append happens first; a summary-call
failure leaves the appended proposition with stale metadata; a title-call
failure leaves the new summary next to the old title. -/
def add_proposition_to_chunk_f (o : FallibleOracle)
    (generate_new_metadata_ind : Bool) (st : Store) (cid : String)
    (p : String) : Store × Bool :=
  let st1 := updateChunk st cid
    (fun c => { c with propositions := c.propositions ++ [p] })
  if generate_new_metadata_ind then
    match storeLookup st1 cid with
    | none => (st1, false)
    | some c1 =>
      match o.updatedSummary c1.propositions c1.summary with
      | none => (st1, false)
      | some s2 =>
        let st2 := updateChunk st1 cid (fun c => { c with summary := s2 })
        match storeLookup st2 cid with
        | none => (st2, false)
        | some c2 =>
          match o.updatedTitle c2.propositions c2.summary c2.title with
          | none => (st2, false)
          | some t2 =>
            (updateChunk st2 cid (fun c => { c with title := t2 }), true)
  else (st1, true)

/-! Concrete instances used to exercise the definitions. -/

/-- A concrete oracle whose placement answer is always the sentinel `NONE`. -/
def stubOracle : Oracle where
  placementResponse := fun _ _ => "NONE"
  newSummary := fun p => "summary of " ++ p
  newTitle := fun s => "title of " ++ s
  updatedSummary := fun _ s => s ++ "+"
  updatedTitle := fun _ _ t => t ++ "+"

/-- A concrete oracle whose placement answer is a mixed-case sentinel. -/
def sentinelOracle : Oracle where
  placementResponse := fun _ _ => "No Match"
  newSummary := fun p => "summary of " ++ p
  newTitle := fun s => "title of " ++ s
  updatedSummary := fun _ s => s ++ "+"
  updatedTitle := fun _ _ t => t ++ "+"

/-- A sample stored chunk. -/
def demoChunk : Chunk :=
  { chunk_id := "a1b2c"
    propositions := ["The month is October."]
    title := "Dates & Time"
    summary := "Statements about the current date."
    chunk_index := 0 }

/-- A second sample stored chunk. -/
def demoChunk2 : Chunk :=
  { chunk_id := "f9e8d"
    propositions := ["Returns are superlinear."]
    title := "Performance Returns"
    summary := "Statements about returns for performance."
    chunk_index := 1 }

/-- A sample two-chunk store. -/
def demoStore : Store := [demoChunk, demoChunk2]

/-- A fallible oracle whose summary refresh succeeds and whose title refresh
fails. -/
def failTitleOracle : FallibleOracle where
  updatedSummary := fun _ _ => some "S2"
  updatedTitle := fun _ _ _ => none

/-- An injective id stream: the `n`-th draw is the string of `n` letters `a`. -/
def repIds (n : Nat) : String := String.mk (List.replicate n 'a')

/-! ## Claims about the Placement Resolver -/

/-- Claim C2: whenever the (stripped) Oracle placement response, uppercased,
equals one of the sentinel phrases `NONE` / `NO CHUNKS` / `NO MATCH` / `NO`
(i.e. the response equals one of them case-insensitively), the resolver
returns no match, regardless of the store contents. -/
theorem claim2_sentinel_means_no_match (o : Oracle) (st : Store) (p : String)
    (h : pyUpper (pyStrip (o.placementResponse (get_chunk_outline st) p)) ∈
      noMatchSentinels) :
    (find_relevant_chunk o st p).1 = none := by
  simp [find_relevant_chunk, parsePlacement, h]

/-- Witness for C2: a mixed-case sentinel response on a non-empty store. -/
theorem claim2_sentinel_means_no_match_witness :
    pyUpper (pyStrip (sentinelOracle.placementResponse
        (get_chunk_outline demoStore) "The day is Monday.")) ∈ noMatchSentinels ∧
    (find_relevant_chunk sentinelOracle demoStore "The day is Monday.").1 = none :=
  ⟨by decide,
    claim2_sentinel_means_no_match sentinelOracle demoStore "The day is Monday."
      (by decide)⟩

/-- Claim C1: on a non-empty store, for a response that is not a sentinel,
not an exact chunk id, and whose 5-character truncation is no chunk id:
if some known chunk id occurs as a substring of the response the parser
returns the first such id in store order (`List.find?` over the keys) and not
no-match; and if no id matches by any of the three tiers it returns none. -/
theorem claim1_substring_tier (st : Store) (r : String)
    (hne : st ≠ [])
    (hsent : pyUpper r ∉ noMatchSentinels)
    (hexact : storeMem st r = false)
    (htrunc : storeMem st (pyTake r id_truncate_limit) = false) :
    ((∃ cid ∈ storeIds st, strContains r cid = true) →
      ∃ c0, parsePlacement st r = some c0 ∧
        (storeIds st).find? (fun cid => strContains r cid) = some c0) ∧
    ((∀ cid ∈ storeIds st, strContains r cid = false) →
      parsePlacement st r = none) := by
  have hp : parsePlacement st r =
      (storeIds st).find? (fun cid => strContains r cid) := by
    simp [parsePlacement, hsent, hexact, htrunc]
  constructor
  · intro h
    have hsome : ((storeIds st).find? (fun cid => strContains r cid)).isSome := by
      rw [List.find?_isSome]
      obtain ⟨cid, hmem, hsub⟩ := h
      exact ⟨cid, hmem, hsub⟩
    obtain ⟨c0, hc0⟩ := Option.isSome_iff_exists.mp hsome
    exact ⟨c0, hp.trans hc0, hc0⟩
  · intro h
    rw [hp, List.find?_eq_none]
    intro x hx
    simp [h x hx]

/-- Witness for C1: the response wraps the id of the second stored chunk in a
sentence; the parser extracts exactly that id. -/
theorem claim1_substring_tier_witness :
    demoStore ≠ [] ∧
    pyUpper "The chunk f9e8d fits best." ∉ noMatchSentinels ∧
    storeMem demoStore "The chunk f9e8d fits best." = false ∧
    storeMem demoStore (pyTake "The chunk f9e8d fits best." id_truncate_limit) = false ∧
    (((∃ cid ∈ storeIds demoStore,
        strContains "The chunk f9e8d fits best." cid = true) →
      ∃ c0, parsePlacement demoStore "The chunk f9e8d fits best." = some c0 ∧
        (storeIds demoStore).find?
          (fun cid => strContains "The chunk f9e8d fits best." cid) = some c0) ∧
    ((∀ cid ∈ storeIds demoStore,
        strContains "The chunk f9e8d fits best." cid = false) →
      parsePlacement demoStore "The chunk f9e8d fits best." = none)) :=
  ⟨by decide, by decide, by decide, by decide,
    claim1_substring_tier demoStore "The chunk f9e8d fits best."
      (by decide) (by decide) (by decide) (by decide)⟩

/-- Counterexample to C3 as stated: on an empty store `_find_relevant_chunk`
still issues its one Oracle query (the claimed query-free short-circuit does
not live in this function). -/
theorem claim3_counterexample :
    ¬ ((find_relevant_chunk stubOracle [] "The month is October.").1 = none ∧
       (find_relevant_chunk stubOracle [] "The month is October.").2 = 0) := by
  decide

/-- Claim C3 (amended): the query-free empty-store short-circuit lives in
`add_proposition`, which creates the first chunk without issuing any
placement query; `_find_relevant_chunk` itself has no empty-store check and
issues exactly one Oracle query even on an empty store, though its parse
still returns no match there for every possible response. -/
theorem claim3_empty_store_short_circuit (o : Oracle)
    (generate_new_metadata_ind : Bool) (new_id p r : String) :
    (add_proposition o generate_new_metadata_ind new_id [] p).2.1 = 0 ∧
    (add_proposition o generate_new_metadata_ind new_id [] p).2.2 = true ∧
    parsePlacement [] r = none ∧
    (find_relevant_chunk o [] p).2 = 1 := by
  refine ⟨rfl, rfl, ?_, rfl⟩
  simp [parsePlacement, storeMem, storeIds]

/-! ## Claims about the orchestrator -/

/-- Claim C7: on an empty store, `add_proposition` founds the first chunk,
seeded with the proposition, with no placement Oracle query. -/
theorem claim7_first_proposition_creates (o : Oracle)
    (generate_new_metadata_ind : Bool) (new_id p : String) :
    add_proposition o generate_new_metadata_ind new_id [] p =
      ([{ chunk_id := new_id
          propositions := [p]
          title := o.newTitle (o.newSummary p)
          summary := o.newSummary p
          chunk_index := 0 }], 0, true) := rfl

/-- Claim C8: `get_chunks('list_of_strings')` yields exactly one string per
stored chunk, positionally aligned with the store order, each the space-joined
concatenation of that chunk's propositions. -/
theorem claim8_list_of_strings_view (st : Store) :
    ∃ l, get_chunks st "list_of_strings" = some (ChunksView.strings l) ∧
      l.length = st.length ∧
      ∀ i : Nat, l[i]? =
        (st[i]?).map (fun c : Chunk => String.intercalate " " c.propositions) := by
  refine ⟨st.map (fun c : Chunk => String.intercalate " " c.propositions),
    ?_, List.length_map _ _, ?_⟩
  · rfl
  · intro i
    exact List.getElem?_map _ _ _

/-- Claim C10: any `get_type` other than `'dict'` and `'list_of_strings'`
falls off the end of `get_chunks`, yielding `None` (the function only reads
the store, so the store is untouched). -/
theorem claim10_unknown_get_type (st : Store) (get_type : String)
    (h1 : get_type ≠ "dict") (h2 : get_type ≠ "list_of_strings") :
    get_chunks st get_type = none := by
  simp [get_chunks, h1, h2]

/-- Witness for C10 at the unrecognized mode `'json'`. -/
theorem claim10_unknown_get_type_witness :
    ("json" : String) ≠ "dict" ∧ ("json" : String) ≠ "list_of_strings" ∧
    get_chunks demoStore "json" = none :=
  ⟨by decide, by decide,
    claim10_unknown_get_type demoStore "json" (by decide) (by decide)⟩

/-! ## Frame property of the append path -/

/-- Claim C9: with metadata regeneration disabled, appending to an existing
chunk only extends that chunk's proposition list; its id, title, summary and
index, and every field of every other chunk, are untouched, and no chunk is
added or removed. -/
theorem claim9_append_frame (o : Oracle) (st : Store) (cid p : String)
    (hmem : cid ∈ storeIds st) :
    (add_proposition_to_chunk o false st cid p).length = st.length ∧
    ∀ i : Nat, ∀ c c2 : Chunk, st[i]? = some c →
      (add_proposition_to_chunk o false st cid p)[i]? = some c2 →
      c2.chunk_id = c.chunk_id ∧ c2.title = c.title ∧ c2.summary = c.summary ∧
      c2.chunk_index = c.chunk_index ∧
      (c.chunk_id = cid → c2.propositions = c.propositions ++ [p]) ∧
      (c.chunk_id ≠ cid → c2 = c) := by
  have hdef : add_proposition_to_chunk o false st cid p =
      updateChunk st cid
        (fun c => { c with propositions := c.propositions ++ [p] }) := rfl
  rw [hdef]
  refine ⟨List.length_map _ _, ?_⟩
  intro i c c2 hc hc2
  rw [updateChunk, List.getElem?_map _ _ i, hc, Option.map_some'] at hc2
  have hc2' : (if c.chunk_id == cid then
      { c with propositions := c.propositions ++ [p] } else c) = c2 :=
    Option.some.inj hc2
  by_cases h : c.chunk_id = cid
  · rw [if_pos (by simp [h])] at hc2'
    subst hc2'
    exact ⟨rfl, rfl, rfl, rfl, fun _ => rfl, fun hne2 => absurd h hne2⟩
  · rw [if_neg (by simp [h])] at hc2'
    subst hc2'
    exact ⟨rfl, rfl, rfl, rfl, fun hh => absurd hh h, fun _ => rfl⟩

/-- Witness for C9: append `"The year is 2023."` to the first demo chunk. -/
theorem claim9_append_frame_witness :
    "a1b2c" ∈ storeIds demoStore ∧
    ((add_proposition_to_chunk stubOracle false demoStore "a1b2c"
        "The year is 2023.").length = demoStore.length ∧
    ∀ i : Nat, ∀ c c2 : Chunk, demoStore[i]? = some c →
      (add_proposition_to_chunk stubOracle false demoStore "a1b2c"
        "The year is 2023.")[i]? = some c2 →
      c2.chunk_id = c.chunk_id ∧ c2.title = c.title ∧ c2.summary = c.summary ∧
      c2.chunk_index = c.chunk_index ∧
      (c.chunk_id = "a1b2c" →
        c2.propositions = c.propositions ++ ["The year is 2023."]) ∧
      (c.chunk_id ≠ "a1b2c" → c2 = c)) :=
  ⟨by decide,
    claim9_append_frame stubOracle demoStore "a1b2c" "The year is 2023."
      (by decide)⟩

/-! ## Oracle failure during metadata refresh, and id collisions -/

/-- Claim C4 fails on the code: at this input the summary-refresh oracle call
succeeds and the title-refresh call fails, and `add_proposition_to_chunk`
ends (flag `false` = an exception escaped) with the proposition appended and
the summary replaced by `S2` while the title still holds its old value — a
partially-updated chunk, with no rollback. -/
theorem claim4_partial_state_on_title_failure :
    add_proposition_to_chunk_f failTitleOracle true [demoChunk] "a1b2c"
        "The year is 2023." =
      ([{ chunk_id := "a1b2c"
          propositions := ["The month is October.", "The year is 2023."]
          title := "Dates & Time"
          summary := "S2"
          chunk_index := 0 }], false) := by
  rfl

/-- Claim C5 fails on the code: `_create_new_chunk` performs no collision
check, so a generated id equal to the stored id `a1b2c` makes the dict
assignment overwrite the existing chunk — the store still holds one chunk,
the original propositions are lost, and the survivor carries `chunk_index`
1. -/
theorem claim5_collision_overwrites :
    (create_new_chunk stubOracle "a1b2c" [demoChunk] "P2").length = 1 ∧
    create_new_chunk stubOracle "a1b2c" [demoChunk] "P2" =
      [{ chunk_id := "a1b2c"
         propositions := ["P2"]
         title := "title of summary of P2"
         summary := "summary of P2"
         chunk_index := 1 }] :=
  ⟨rfl, rfl⟩

/-! ## The chunk-index invariant over whole runs -/

theorem updateChunk_length (st : Store) (cid : String) (f : Chunk → Chunk) :
    (updateChunk st cid f).length = st.length :=
  List.length_map _ _

theorem updateChunk_map_chunk_id (st : Store) (cid : String) (f : Chunk → Chunk)
    (hf : ∀ c, (f c).chunk_id = c.chunk_id) :
    (updateChunk st cid f).map (·.chunk_id) = st.map (·.chunk_id) := by
  rw [updateChunk, List.map_map]
  refine List.map_congr_left ?_
  intro c _
  simp only [Function.comp_apply]
  by_cases h : c.chunk_id = cid
  · simp [h, hf]
  · simp [h]

theorem updateChunk_map_chunk_index (st : Store) (cid : String)
    (f : Chunk → Chunk) (hf : ∀ c, (f c).chunk_index = c.chunk_index) :
    (updateChunk st cid f).map (·.chunk_index) = st.map (·.chunk_index) := by
  rw [updateChunk, List.map_map]
  refine List.map_congr_left ?_
  intro c _
  simp only [Function.comp_apply]
  by_cases h : c.chunk_id = cid
  · simp [h, hf]
  · simp [h]

/-- The append path never touches ids, indices or the number of chunks,
whether or not metadata regeneration is on. -/
theorem add_proposition_to_chunk_keys (o : Oracle)
    (generate_new_metadata_ind : Bool) (st : Store) (cid p : String) :
    (add_proposition_to_chunk o generate_new_metadata_ind st cid p).map
        (·.chunk_id) = st.map (·.chunk_id) ∧
    (add_proposition_to_chunk o generate_new_metadata_ind st cid p).map
        (·.chunk_index) = st.map (·.chunk_index) ∧
    (add_proposition_to_chunk o generate_new_metadata_ind st cid p).length =
      st.length := by
  cases generate_new_metadata_ind with
  | false =>
    exact ⟨updateChunk_map_chunk_id _ _ _ (fun c => rfl),
      updateChunk_map_chunk_index _ _ _ (fun c => rfl),
      updateChunk_length _ _ _⟩
  | true =>
    refine ⟨(updateChunk_map_chunk_id _ _ _ ?_).trans
        ((updateChunk_map_chunk_id _ _ _ ?_).trans
          (updateChunk_map_chunk_id _ _ _ ?_)),
      (updateChunk_map_chunk_index _ _ _ ?_).trans
        ((updateChunk_map_chunk_index _ _ _ ?_).trans
          (updateChunk_map_chunk_index _ _ _ ?_)),
      (updateChunk_length _ _ _).trans
        ((updateChunk_length _ _ _).trans (updateChunk_length _ _ _))⟩ <;>
      exact fun c => rfl

/-- Run invariant: the store keys are exactly the ids drawn so far in draw
order, the stored `chunk_index` values are `0, 1, ..., length-1` in store
order, and the store size equals the number of creations. -/
def goodState (ids : Nat → String) (s : RunState) : Prop :=
  s.store.map (·.chunk_id) = (List.range s.created).map ids ∧
  s.store.map (·.chunk_index) = List.range s.store.length ∧
  s.store.length = s.created

theorem run_add_proposition_good (o : Oracle)
    (generate_new_metadata_ind : Bool) (ids : Nat → String)
    (hinj : Function.Injective ids) (s : RunState) (p : String)
    (hs : goodState ids s) :
    goodState ids (run_add_proposition o generate_new_metadata_ind ids s p) := by
  obtain ⟨st, k⟩ := s
  obtain ⟨hids, hidx, hlen⟩ := hs
  dsimp only at hids hidx hlen ⊢
  by_cases hempty : st.length = 0
  · have hst : st = [] := List.length_eq_zero.mp hempty
    subst hst
    have hk : k = 0 := by simpa using hlen.symm
    subst hk
    refine ⟨?_, ?_, ?_⟩ <;>
      simp [run_add_proposition, add_proposition, create_new_chunk,
        storeInsert, storeMem, storeIds, List.range_succ]
  · have hnotmem : ids k ∉ storeIds st := by
      rw [storeIds, hids]
      intro hmemk
      obtain ⟨j, hj, hje⟩ := List.mem_map.mp hmemk
      have hjk : j = k := hinj hje
      rw [List.mem_range] at hj
      omega
    have hfresh : storeMem st (ids k) = false := by
      simp only [storeMem]
      simp [hnotmem]
    unfold goodState run_add_proposition add_proposition
    rw [if_neg hempty]
    cases hmatch : (find_relevant_chunk o st p).1 with
    | some cid =>
      obtain ⟨h1, h2, h3⟩ :=
        add_proposition_to_chunk_keys o generate_new_metadata_ind st cid p
      refine ⟨?_, ?_, ?_⟩ <;> simp [hmatch, h1, h2, h3, hids, hidx, hlen]
    | none =>
      have hins : create_new_chunk o (ids k) st p =
          st ++ [{ chunk_id := ids k
                   propositions := [p]
                   title := o.newTitle (o.newSummary p)
                   summary := o.newSummary p
                   chunk_index := st.length }] := by
        simp [create_new_chunk, storeInsert, hfresh]
      refine ⟨?_, ?_, ?_⟩ <;>
        simp [hmatch, hins, hids, hidx, hlen, List.range_succ,
          List.map_append, List.length_append]

/-- The invariant is preserved by any whole batch. -/
theorem add_propositions_good (o : Oracle) (generate_new_metadata_ind : Bool)
    (ids : Nat → String) (hinj : Function.Injective ids) (ps : List String)
    (s : RunState) (hs : goodState ids s) :
    goodState ids (add_propositions o generate_new_metadata_ind ids ps s) := by
  induction ps generalizing s with
  | nil => exact hs
  | cons p ps ih =>
    exact ih _ (run_add_proposition_good o generate_new_metadata_ind ids hinj
      s p hs)

/-- The demonstration id stream is injective: distinct draws give distinct
ids. -/
theorem repIds_injective : Function.Injective repIds := by
  intro a b h
  have h2 : List.replicate a 'a' = List.replicate b 'a' := congrArg String.data h
  simpa using congrArg List.length h2

/-- Counterexample to C6 as stated: with an id stream that repeats `a1b2c`
and an oracle that always answers `NONE`, two `add_proposition` calls perform
two chunk creations, yet the surviving `chunk_index` values are `[1]`, not a
permutation of `{0, 1}` — the second creation overwrote the first. -/
theorem claim6_counterexample :
    ¬ (((add_propositions stubOracle true (fun _ => "a1b2c")
          ["The month is October.", "The year is 2023."]
          { store := [], created := 0 }).store.map (·.chunk_index)).Perm
        (List.range (add_propositions stubOracle true (fun _ => "a1b2c")
          ["The month is October.", "The year is 2023."]
          { store := [], created := 0 }).created)) := by
  decide

/-- Claim C6 (amended): provided each freshly generated id differs from every
id generated before it (no collision, as an injective draw stream), any batch
of `add_proposition` calls from the empty store reaches a state where, with
`k` the number of chunk creations performed, the stored `chunk_index` values
are exactly `0, 1, ..., k-1` in store (= creation) order and the store holds
exactly `k` chunks. -/
theorem claim6_index_invariant (o : Oracle) (generate_new_metadata_ind : Bool)
    (ids : Nat → String) (hinj : Function.Injective ids) (ps : List String) :
    (add_propositions o generate_new_metadata_ind ids ps
        { store := [], created := 0 }).store.map (·.chunk_index) =
      List.range (add_propositions o generate_new_metadata_ind ids ps
        { store := [], created := 0 }).created ∧
    (add_propositions o generate_new_metadata_ind ids ps
        { store := [], created := 0 }).store.length =
      (add_propositions o generate_new_metadata_ind ids ps
        { store := [], created := 0 }).created := by
  have hstart : goodState ids { store := [], created := 0 } := by
    refine ⟨?_, ?_, ?_⟩ <;> simp
  obtain ⟨h1, h2, h3⟩ := add_propositions_good o generate_new_metadata_ind ids
    hinj ps { store := [], created := 0 } hstart
  exact ⟨by rw [h2, h3], h3⟩

/-- Witness for C6 (amended) on a concrete injective id stream and a two
proposition batch. -/
theorem claim6_index_invariant_witness :
    Function.Injective repIds ∧
    ((add_propositions stubOracle true repIds
        ["The month is October.", "The year is 2023."]
        { store := [], created := 0 }).store.map (·.chunk_index) =
      List.range (add_propositions stubOracle true repIds
        ["The month is October.", "The year is 2023."]
        { store := [], created := 0 }).created ∧
    (add_propositions stubOracle true repIds
        ["The month is October.", "The year is 2023."]
        { store := [], created := 0 }).store.length =
      (add_propositions stubOracle true repIds
        ["The month is October.", "The year is 2023."]
        { store := [], created := 0 }).created) :=
  ⟨repIds_injective,
    claim6_index_invariant stubOracle true repIds repIds_injective
      ["The month is October.", "The year is 2023."]⟩

end AgenticChunker
